import Mathlib

/-!
Shallow embedding of the order-services microservice core:
the order-creation workflow (`src/app/api/v1/orders.py`), the list endpoint
ordering logic, the request schemas (`src/app/schemas/order_header.py`,
`src/app/schemas/order_line.py`), and the token-validation / permission
guard (`src/app/core/security.py`).

Modelling conventions:
- machine integers of the source are `Int` (SQL `Integer` columns, ids,
  quantities) or `Nat` (list indices, HTTP status codes, limits);
- the database session is an explicit `Database` value threaded through the
  handler; `flush`/`commit`/`rollback` become functional state updates;
- the outbound inventory service is a function `inv : Nat → Nat` giving the
  HTTP status code returned to the i-th PATCH call issued by the handler
  (calls are issued strictly sequentially, so indexing by call number is
  faithful);
- fallible handlers return `Except HTTPException _` together with the
  resulting database state and the list of outbound calls actually issued;
- timestamp columns are `Int` epoch values; the `updated_at` columns and the
  `OrderLine.created_at` column are never read by any code path modelled
  here and are omitted from the row types.
-/

/-- HTTP error as raised by FastAPI `HTTPException(status_code, detail)`. -/
structure HTTPException where
  status_code : Nat
  detail : String
deriving DecidableEq, Repr

/-- One outbound PATCH call to the inventory service:
`PATCH {base}/items/{item_id}?change_quantity={quantity}`. -/
structure InventoryCall where
  item_id : Int
  quantity : Int
deriving DecidableEq, Repr

/-- Pydantic schema `OrderLineCreateRequest` (`src/app/schemas/order_line.py`):
`item_id: int = Field(..., gt=0)`, `quantity: int = Field(..., gt=0)`. -/
structure OrderLineCreateRequest where
  item_id : Int
  quantity : Int
deriving DecidableEq, Repr

/-- Pydantic schema `OrderHeaderCreateRequest` (`src/app/schemas/order_header.py`):
`user_id: int = Field(..., gt=0)`, `total_items: int = Field(None, gt=0)`
(optional, validated `> 0` when supplied), `order_lines: list[...]`. -/
structure OrderHeaderCreateRequest where
  user_id : Int
  total_items : Option Int
  order_lines : List OrderLineCreateRequest
deriving DecidableEq, Repr

/-- Validator `check_list_items_not_empty` on `OrderHeaderCreateRequest`:
raises unless `len(v) >= 1`. -/
def check_list_items_not_empty (v : List OrderLineCreateRequest) : Bool :=
  decide (1 ≤ v.length)

/-- Schema-level validation performed by pydantic before the handler runs:
field constraints of `OrderHeaderCreateRequest` and of each nested
`OrderLineCreateRequest`, plus `check_list_items_not_empty`. -/
def OrderHeaderCreateRequest.valid (r : OrderHeaderCreateRequest) : Bool :=
  decide (0 < r.user_id) &&
  (match r.total_items with
   | some t => decide (0 < t)
   | none => true) &&
  check_list_items_not_empty r.order_lines &&
  r.order_lines.all (fun l => decide (0 < l.item_id) && decide (0 < l.quantity))

/-- Row of table `order_headers` (`src/app/db/models/order_header.py`). -/
structure OrderHeader where
  order_id : Int
  user_id : Int
  total_items : Int
  created_at : Int
deriving DecidableEq, Repr

/-- Row of table `order_lines` (`src/app/db/models/order_line.py`);
composite key `(order_id, line_number)`. -/
structure OrderLine where
  order_id : Int
  line_number : Nat
  item_id : Int
  quantity : Int
deriving DecidableEq, Repr

/-- Committed database state: the visible rows, plus the next value of the
`order_id` autoincrement sequence. -/
structure Database where
  headers : List OrderHeader
  lines : List OrderLine
  next_order_id : Int
deriving DecidableEq, Repr

/-- Successful response body of `POST /orders/`:
`{"message": ..., "order": order_id}`. -/
structure CreateOrderResponse where
  message : String
  order : Int
deriving DecidableEq, Repr

/-- Outcome of one `create_order` request: the HTTP result, the database
state visible afterwards, and the outbound inventory calls issued. -/
structure CreateOrderResult where
  result : Except HTTPException CreateOrderResponse
  db : Database
  calls : List InventoryCall
deriving Repr

/-- Per-line loop body of `create_order` (`for index, item in
enumerate(order_request.order_lines)`): stages the `OrderLine` row with
`line_number = index + 1`, issues the PATCH call, and stops at the first
response whose status code is not 200.  Returns the staged rows, the calls
issued, and whether every call succeeded.  `inv i` is the status code the
inventory service returns to the i-th call. -/
def stageLoop (inv : Nat → Nat) (oid : Int) :
    List OrderLineCreateRequest → Nat → List OrderLine × List InventoryCall × Bool
  | [], _ => ([], [], true)
  | item :: rest, index =>
    let order_line : OrderLine := ⟨oid, index + 1, item.item_id, item.quantity⟩
    let call : InventoryCall := ⟨item.item_id, item.quantity⟩
    if inv index = 200 then
      match stageLoop inv oid rest (index + 1) with
      | (staged, calls, ok) => (order_line :: staged, call :: calls, ok)
    else
      ([order_line], [call], false)

/-- Handler `create_order` of `POST /orders/` (`src/app/api/v1/orders.py`):
stages the header (`db.add`; `db.flush` assigns `order_id` from the
sequence), runs the per-line loop, and on first inventory failure rolls the
transaction back and raises 400 `"Failed to update item quantity"`; when
every call succeeds it commits, re-fetches the committed header by
`order_id`, and returns the success payload (or a 500 if the re-fetch
finds nothing).  `now` is the database clock used for `created_at`. -/
def create_order (db : Database) (order_request : OrderHeaderCreateRequest)
    (inv : Nat → Nat) (now : Int) : CreateOrderResult :=
  let oid := db.next_order_id
  let new_order : OrderHeader :=
    ⟨oid, order_request.user_id, (order_request.order_lines.length : Int), now⟩
  let staged := (stageLoop inv oid order_request.order_lines 0).1
  let calls := (stageLoop inv oid order_request.order_lines 0).2.1
  let ok := (stageLoop inv oid order_request.order_lines 0).2.2
  if ok then
    let committed : Database := ⟨db.headers ++ [new_order], db.lines ++ staged, oid + 1⟩
    let response : Except HTTPException CreateOrderResponse :=
      match committed.headers.find? (fun h => h.order_id == oid) with
      | some h => Except.ok ⟨"Order created successfully", h.order_id⟩
      | none => Except.error ⟨500, "Failed to fetch the committed order."⟩
    ⟨response, committed, calls⟩
  else
    ⟨Except.error ⟨400, "Failed to update item quantity"⟩, db, calls⟩

/-- The `POST /orders/` endpoint as seen by a client: FastAPI runs the
pydantic schema validation of the body first and rejects invalid bodies
with 422 before the handler (and hence any inventory call) runs. -/
def post_orders (db : Database) (order_request : OrderHeaderCreateRequest)
    (inv : Nat → Nat) (now : Int) : CreateOrderResult :=
  if order_request.valid then
    create_order db order_request inv now
  else
    ⟨Except.error ⟨422, "Unprocessable Entity"⟩, db, []⟩

/-- Python `str.lower()` on the ASCII column names involved here. -/
def lowerStr (s : String) : String := String.mk (s.data.map Char.toLower)

/-- Allow-list of sortable columns in `read_all_orders`. -/
def allowed_columns : List String := ["order_id", "total_items", "created_at"]

/-- Resolution of the `order_by` query parameter in `read_all_orders`:
`None` defaults to `"order_id"`, then
`order_by.lower() if order_by.lower() in allowed_columns else "order_id"`. -/
def resolve_order_by (order_by : Option String) : String :=
  let ob := lowerStr (order_by.getD "order_id")
  if ob ∈ allowed_columns then ob else "order_id"

/-- Sort key of an `order_headers` row for a resolved column name. -/
def orderKey (col : String) (h : OrderHeader) : Int :=
  if col = "total_items" then h.total_items
  else if col = "created_at" then h.created_at
  else h.order_id

/-- Insertion step of the deterministic ordering applied by `ORDER BY`. -/
def insertSorted (le : OrderHeader → OrderHeader → Bool) (x : OrderHeader) :
    List OrderHeader → List OrderHeader
  | [] => [x]
  | y :: ys => if le x y then x :: y :: ys else y :: insertSorted le x ys

/-- Deterministic model of `ORDER BY` over the committed header rows. -/
def sortRows (le : OrderHeader → OrderHeader → Bool) :
    List OrderHeader → List OrderHeader
  | [] => []
  | x :: xs => insertSorted le x (sortRows le xs)

/-- Handler `read_all_orders` of `GET /orders/` (`src/app/api/v1/orders.py`):
orders the committed headers by the resolved column (`asc`/`desc` per the
`ascending` flag) and applies `limit` when present. -/
def read_all_orders (db : Database) (limit : Option Nat) (order_by : Option String)
    (ascending : Bool) : List OrderHeader :=
  let ob := resolve_order_by order_by
  let sorted := sortRows
    (fun a b =>
      if ascending then decide (orderKey ob a ≤ orderKey ob b)
      else decide (orderKey ob b ≤ orderKey ob a))
    db.headers
  match limit with
  | some l => sorted.take l
  | none => sorted

/-- Decoded JWT claim set as read by `validate_token`
(`payload.get("username")`, `payload.get("user_id")`, `payload.get("exp")`,
`payload.get("permissions")`, `payload.get("roles")`); a `none` field is an
absent claim. -/
structure TokenPayload where
  username : Option String
  user_id : Option Int
  exp : Option Int
  permissions : Option (List String)
  roles : Option (List String)
deriving DecidableEq, Repr

/-- Claim-level checks of `validate_token` (`src/app/core/security.py`),
applied to an already-decoded payload (`jwt.decode` — signature and
well-formedness checking — is abstracted away; a decode failure is a 401
upstream of these checks):  if `exp` is absent or the expiry instant is
strictly before `now`, 401 "Token expired"; then if `username` or
`user_id` is absent, 401 "Token payload is invalid."; otherwise the
payload is returned. -/
def validate_token (now : Int) (payload : TokenPayload) :
    Except HTTPException TokenPayload :=
  match payload.exp with
  | none => Except.error ⟨401, "Token expired"⟩
  | some exp_timestamp =>
    if exp_timestamp < now then
      Except.error ⟨401, "Token expired"⟩
    else if payload.username.isNone || payload.user_id.isNone then
      Except.error ⟨401, "Token payload is invalid."⟩
    else
      Except.ok payload

/-- Inner checker produced by `check_permissions`
(`src/app/core/security.py`): reads `payload.get("permissions", [])` and
fails with 403 unless some required permission is among the user's
permissions. -/
def permission_checker (required_permissions : List String)
    (payload : TokenPayload) : Except HTTPException Unit :=
  let user_permissions := payload.permissions.getD []
  if required_permissions.any (fun p => decide (p ∈ user_permissions)) then
    Except.ok ()
  else
    Except.error ⟨403, "Operation not permitted because of insufficient permissions"⟩

/-- Full route guard `check_permissions(required)` as resolved by FastAPI:
`validate_token` runs first (a 401 short-circuits), then the permission
checker runs on the validated payload. -/
def check_permissions (required_permissions : List String) (now : Int)
    (payload : TokenPayload) : Except HTTPException Unit :=
  match validate_token now payload with
  | Except.ok p => permission_checker required_permissions p
  | Except.error e => Except.error e

/-- Permission list guarding `POST /orders/`
(`check_permissions((["manage_orders_ORDER_SERVICE"]))`). -/
def create_order_permissions : List String := ["manage_orders_ORDER_SERVICE"]

/-- Permission list guarding `GET /orders/`. -/
def read_all_orders_permissions : List String :=
  ["manage_orders_ORDER_SERVICE", "view_orders_ORDER_SERVICE"]

/-- Permission list guarding `GET /orders/{order_id}`. -/
def read_order_permissions : List String :=
  ["manage_orders_ORDER_SERVICE", "view_orders_ORDER_SERVICE"]

/-! Helper lemmas shared by several claims. -/

/-- Staged row built for the line at (0-based) index `p.fst`. -/
def mkStagedLine (oid : Int) (p : Nat × OrderLineCreateRequest) : OrderLine :=
  ⟨oid, p.fst + 1, p.snd.item_id, p.snd.quantity⟩

/-- Call issued for one request line. -/
def mkCall (it : OrderLineCreateRequest) : InventoryCall :=
  ⟨it.item_id, it.quantity⟩

theorem stageLoop_success (inv : Nat → Nat) (oid : Int)
    (l : List OrderLineCreateRequest) (idx : Nat)
    (h : ∀ i, i < l.length → inv (idx + i) = 200) :
    stageLoop inv oid l idx =
      ((List.enumFrom idx l).map (mkStagedLine oid), l.map mkCall, true) := by
  induction l generalizing idx with
  | nil => rfl
  | cons item rest ih =>
    have h0 : inv idx = 200 := by simpa using h 0 (by simp)
    have hrest : ∀ i, i < rest.length → inv (idx + 1 + i) = 200 := by
      intro i hi
      have := h (i + 1) (by simpa using Nat.succ_lt_succ hi)
      simpa [Nat.add_assoc, Nat.add_comm 1 i] using this
    simp [stageLoop, h0, ih (idx + 1) hrest, List.enumFrom, mkStagedLine, mkCall]

theorem stageLoop_fail (inv : Nat → Nat) (oid : Int)
    (l : List OrderLineCreateRequest) (idx j : Nat)
    (hj : j < l.length)
    (hok : ∀ i, i < j → inv (idx + i) = 200)
    (hfail : inv (idx + j) ≠ 200) :
    stageLoop inv oid l idx =
      ((List.enumFrom idx (l.take (j + 1))).map (mkStagedLine oid),
       (l.take (j + 1)).map mkCall, false) := by
  induction l generalizing idx j with
  | nil => exact absurd hj (by simp)
  | cons item rest ih =>
    cases j with
    | zero =>
      have hf : inv idx ≠ 200 := by simpa using hfail
      simp [stageLoop, hf, List.enumFrom, mkStagedLine, mkCall]
    | succ j =>
      have h0 : inv idx = 200 := by simpa using hok 0 (Nat.succ_pos j)
      have hok1 : ∀ i, i < j → inv (idx + 1 + i) = 200 := by
        intro i hi
        have := hok (i + 1) (Nat.succ_lt_succ hi)
        simpa [Nat.add_assoc, Nat.add_comm 1 i] using this
      have hfail1 : inv (idx + 1 + j) ≠ 200 := by
        simpa [Nat.add_assoc, Nat.add_comm 1 j] using hfail
      have hj1 : j < rest.length := by simpa using Nat.lt_of_succ_lt_succ hj
      simp [stageLoop, h0, ih (idx + 1) j hj1 hok1 hfail1, List.enumFrom,
        mkStagedLine, mkCall]

theorem enumFrom_succ_fst {α : Type} (idx : Nat) (l : List α) :
    (List.enumFrom idx l).map (fun p => p.fst + 1) = List.range' (idx + 1) l.length := by
  induction l generalizing idx with
  | nil => rfl
  | cons x xs ih => simp [List.enumFrom, List.range', ih (idx + 1)]

theorem refetch_finds_new_header (headers : List OrderHeader) (h0 : OrderHeader)
    (oid : Int) (hh : h0.order_id = oid) :
    ∃ h, (headers ++ [h0]).find? (fun x => x.order_id == oid) = some h
      ∧ h.order_id = oid := by
  have hex : ∃ x, x ∈ headers ++ [h0] ∧ (fun x => x.order_id == oid) x = true :=
    ⟨h0, by simp, by simp [hh]⟩
  have hsome : ((headers ++ [h0]).find? (fun x => x.order_id == oid)).isSome := by
    rw [List.find?_isSome]
    simpa using hex
  obtain ⟨h, hfind⟩ := Option.isSome_iff_exists.mp hsome
  refine ⟨h, hfind, ?_⟩
  have := List.find?_some hfind
  simpa using this

/-- C1: for an order-creation request with n ≥ 2 lines whose inventory call
for line k (1 ≤ k < n, here k = j + 1 with 0-based j) is the first to
return a non-success status, exactly k outbound inventory calls are issued
(one per line 1..k in input order, none for lines k+1..n), the local
transaction is rolled back so the database is unchanged (no header or line
rows from this request are visible), and the request fails with a 400
error. -/
theorem C1_fail_fast_rollback (db : Database) (req : OrderHeaderCreateRequest)
    (inv : Nat → Nat) (now : Int) (j : Nat)
    (hn : 2 ≤ req.order_lines.length) (hj : j + 1 < req.order_lines.length)
    (hok : ∀ i, i < j → inv i = 200) (hfail : inv j ≠ 200) :
    (create_order db req inv now).calls = (req.order_lines.take (j + 1)).map mkCall
    ∧ (create_order db req inv now).calls.length = j + 1
    ∧ (create_order db req inv now).db = db
    ∧ (create_order db req inv now).result
        = Except.error ⟨400, "Failed to update item quantity"⟩ := by
  have hs := stageLoop_fail inv db.next_order_id req.order_lines 0 j
    (by omega) (fun i hi => by simpa using hok i hi) (by simpa using hfail)
  refine ⟨?_, ?_, ?_, ?_⟩
  · simp [create_order, hs]
  · simp [create_order, hs, List.length_take]
    omega
  · simp [create_order, hs]
  · simp [create_order, hs]

/-- Witness for C1: a 3-line order whose second inventory call returns 500
makes exactly the two calls for lines 1 and 2, leaves the database empty,
and fails with 400. -/
theorem C1_fail_fast_rollback_witness :
    (create_order ⟨[], [], 1⟩ ⟨7, none, [⟨10, 2⟩, ⟨11, 1⟩, ⟨12, 5⟩]⟩
        (fun i => if i = 1 then 500 else 200) 0).calls = [⟨10, 2⟩, ⟨11, 1⟩]
    ∧ (create_order ⟨[], [], 1⟩ ⟨7, none, [⟨10, 2⟩, ⟨11, 1⟩, ⟨12, 5⟩]⟩
        (fun i => if i = 1 then 500 else 200) 0).calls.length = 2
    ∧ (create_order ⟨[], [], 1⟩ ⟨7, none, [⟨10, 2⟩, ⟨11, 1⟩, ⟨12, 5⟩]⟩
        (fun i => if i = 1 then 500 else 200) 0).db = ⟨[], [], 1⟩
    ∧ (create_order ⟨[], [], 1⟩ ⟨7, none, [⟨10, 2⟩, ⟨11, 1⟩, ⟨12, 5⟩]⟩
        (fun i => if i = 1 then 500 else 200) 0).result
        = Except.error ⟨400, "Failed to update item quantity"⟩ := by
  have h := C1_fail_fast_rollback ⟨[], [], 1⟩ ⟨7, none, [⟨10, 2⟩, ⟨11, 1⟩, ⟨12, 5⟩]⟩
    (fun i => if i = 1 then 500 else 200) 0 1 (by decide) (by decide)
    (fun i hi => by
      have h0 : i = 0 := Nat.lt_one_iff.mp hi
      subst h0
      rfl)
    (by decide)
  exact h

/-- C2: for an order-creation request with n ≥ 1 lines in which every
inventory call succeeds, exactly one header is committed with
total_items = n, and the committed lines are exactly one per input item
with sequential line_number starting at 1 in input order, so the
line_numbers of the new order are exactly 1..n. -/
theorem C2_commit_success (db : Database) (req : OrderHeaderCreateRequest)
    (inv : Nat → Nat) (now : Int)
    (hn : 1 ≤ req.order_lines.length)
    (hinv : ∀ i, i < req.order_lines.length → inv i = 200) :
    (create_order db req inv now).result
        = Except.ok ⟨"Order created successfully", db.next_order_id⟩
    ∧ (create_order db req inv now).db.headers
        = db.headers
          ++ [⟨db.next_order_id, req.user_id, (req.order_lines.length : Int), now⟩]
    ∧ (create_order db req inv now).db.lines
        = db.lines
          ++ (List.enumFrom 0 req.order_lines).map (mkStagedLine db.next_order_id)
    ∧ (((create_order db req inv now).db.lines.drop db.lines.length).map
          OrderLine.line_number)
        = List.range' 1 req.order_lines.length := by
  have hs := stageLoop_success inv db.next_order_id req.order_lines 0
    (fun i hi => by simpa using hinv i hi)
  obtain ⟨h, hfind, hoid⟩ := refetch_finds_new_header db.headers
    ⟨db.next_order_id, req.user_id, (req.order_lines.length : Int), now⟩
    db.next_order_id rfl
  refine ⟨?_, ?_, ?_, ?_⟩
  · simp only [create_order, hs, if_true]
    rw [hfind]
    simp [hoid]
  · simp [create_order, hs]
  · simp [create_order, hs]
  · simp only [create_order, hs, if_true]
    rw [List.drop_left]
    rw [List.map_map]
    have : (OrderLine.line_number ∘ mkStagedLine db.next_order_id)
        = fun p : Nat × OrderLineCreateRequest => p.fst + 1 := by
      funext p
      rfl
    rw [this, enumFrom_succ_fst]

/-- Witness for C2: a 2-line order with both inventory calls succeeding
commits exactly one header with total_items = 2 and lines numbered 1, 2. -/
theorem C2_commit_success_witness :
    (create_order ⟨[], [], 1⟩ ⟨7, none, [⟨10, 2⟩, ⟨11, 1⟩]⟩ (fun _ => 200) 0).result
        = Except.ok ⟨"Order created successfully", 1⟩
    ∧ (create_order ⟨[], [], 1⟩ ⟨7, none, [⟨10, 2⟩, ⟨11, 1⟩]⟩ (fun _ => 200) 0).db.headers
        = [⟨1, 7, 2, 0⟩]
    ∧ (create_order ⟨[], [], 1⟩ ⟨7, none, [⟨10, 2⟩, ⟨11, 1⟩]⟩ (fun _ => 200) 0).db.lines
        = [⟨1, 1, 10, 2⟩, ⟨1, 2, 11, 1⟩]
    ∧ ((create_order ⟨[], [], 1⟩ ⟨7, none, [⟨10, 2⟩, ⟨11, 1⟩]⟩
          (fun _ => 200) 0).db.lines.map OrderLine.line_number) = [1, 2] := by
  have h := C2_commit_success ⟨[], [], 1⟩ ⟨7, none, [⟨10, 2⟩, ⟨11, 1⟩]⟩
    (fun _ => 200) 0 (by decide) (fun i _ => rfl)
  exact ⟨h.1, h.2.1, h.2.2.1, h.2.2.2⟩

/-- C3 counterexample: a token whose expiry instant equals the current time
exactly (exp = now = 0) passes validation — it does not fail, contradicting
the claim that validation fails whenever current time ≥ expiry. -/
theorem C3_counterexample :
    (0 : Int) ≥ 0
    ∧ validate_token 0 ⟨some "u", some 1, some 0, none, none⟩
        = Except.ok ⟨some "u", some 1, some 0, none, none⟩ := by
  exact ⟨le_refl 0, rfl⟩

/-- C3 amended: token validation fails with 401 "Token expired" exactly when
the expiry claim is absent or the current time is strictly greater than the
expiry instant (the code compares with strict `<`, so a token whose expiry
equals the current time passes the expiry check); there is no clock-skew
allowance. -/
theorem C3_token_expiry (now : Int) (payload : TokenPayload) :
    validate_token now payload = Except.error ⟨401, "Token expired"⟩
      ↔ (payload.exp = none ∨ ∃ e, payload.exp = some e ∧ e < now) := by
  cases hexp : payload.exp with
  | none => simp [validate_token, hexp]
  | some e =>
    by_cases hlt : e < now
    · simp [validate_token, hexp, hlt]
    · by_cases hmiss : payload.username.isNone || payload.user_id.isNone
      · simp [validate_token, hexp, hlt, hmiss]
      · simp [validate_token, hexp, hlt, hmiss]

/-- Witness for C3 amended: a token with exp = 3 validated at now = 5 fails
with 401 "Token expired". -/
theorem C3_token_expiry_witness :
    validate_token 5 ⟨some "u", some 1, some 3, none, none⟩
      = Except.error ⟨401, "Token expired"⟩ :=
  (C3_token_expiry 5 ⟨some "u", some 1, some 3, none, none⟩).mpr
    (Or.inr ⟨3, rfl, by decide⟩)

/-- C4: the permission guard succeeds if and only if the token's
permissions intersect the required list (OR over the list, not AND); when
the intersection is empty it fails with 403 "insufficient permissions" and
never otherwise. -/
theorem C4_permission_or (required : List String) (payload : TokenPayload) :
    (permission_checker required payload = Except.ok ()
      ↔ ∃ p, p ∈ required ∧ p ∈ payload.permissions.getD [])
    ∧ (¬ (∃ p, p ∈ required ∧ p ∈ payload.permissions.getD []) →
        permission_checker required payload
          = Except.error
              ⟨403, "Operation not permitted because of insufficient permissions"⟩) := by
  by_cases h : required.any (fun p => decide (p ∈ payload.permissions.getD []))
  · have hex : ∃ p, p ∈ required ∧ p ∈ payload.permissions.getD [] := by
      simpa [List.any_eq_true] using h
    constructor
    · simp [permission_checker, h, hex]
    · intro hne
      exact absurd hex hne
  · have hnex : ¬ ∃ p, p ∈ required ∧ p ∈ payload.permissions.getD [] := by
      simpa [List.any_eq_true] using h
    constructor
    · simp [permission_checker, h, hnex]
    · intro _
      simp [permission_checker, h]

/-- Witness for C4: a token holding "b" passes a guard requiring "a" or
"b", and fails a guard requiring only "a" with 403. -/
theorem C4_permission_or_witness :
    permission_checker ["a", "b"] ⟨none, none, none, some ["b"], none⟩
        = Except.ok ()
    ∧ permission_checker ["a"] ⟨none, none, none, some ["b"], none⟩
        = Except.error
            ⟨403, "Operation not permitted because of insufficient permissions"⟩ := by
  constructor
  · exact (C4_permission_or ["a", "b"] ⟨none, none, none, some ["b"], none⟩).1.mpr
      ⟨"b", by decide, by decide⟩
  · exact (C4_permission_or ["a"] ⟨none, none, none, some ["b"], none⟩).2
      (by decide)

/-- C5 counterexample: a valid unexpired token whose permissions claim
contains exactly "manage_orders" is rejected with 403 by the POST /orders/
guard — the guard requires the string "manage_orders_ORDER_SERVICE", not
"manage_orders". -/
theorem C5_counterexample :
    check_permissions create_order_permissions 0
        ⟨some "u", some 1, some 10, some ["manage_orders"], none⟩
      = Except.error
          ⟨403, "Operation not permitted because of insufficient permissions"⟩ := by
  rfl

/-- C5 amended: the required permission strings are service-scoped:
POST /orders/ requires "manage_orders_ORDER_SERVICE", and the two read
endpoints accept "manage_orders_ORDER_SERVICE" or
"view_orders_ORDER_SERVICE"; every request bearing a valid unexpired token
whose permissions contain the respective string is authorized. -/
theorem C5_route_permissions (now e : Int) (payload : TokenPayload)
    (hu : payload.username.isSome) (hid : payload.user_id.isSome)
    (hexp : payload.exp = some e) (hne : ¬ e < now) :
    ("manage_orders_ORDER_SERVICE" ∈ payload.permissions.getD [] →
        check_permissions create_order_permissions now payload = Except.ok ())
    ∧ (("manage_orders_ORDER_SERVICE" ∈ payload.permissions.getD []
          ∨ "view_orders_ORDER_SERVICE" ∈ payload.permissions.getD []) →
        check_permissions read_all_orders_permissions now payload = Except.ok ()
        ∧ check_permissions read_order_permissions now payload = Except.ok ()) := by
  have hval : validate_token now payload = Except.ok payload := by
    simp [validate_token, hexp, hne, Option.isNone_iff_eq_none]
    constructor
    · intro h
      rw [h] at hu
      cases hu
    · intro h
      rw [h] at hid
      cases hid
  constructor
  · intro hperm
    simp [check_permissions, hval, permission_checker, create_order_permissions, hperm]
  · intro hperm
    constructor
    · simp only [check_permissions, hval]
      rcases hperm with h | h <;>
        simp [permission_checker, read_all_orders_permissions, h]
    · simp only [check_permissions, hval]
      rcases hperm with h | h <;>
        simp [permission_checker, read_order_permissions, h]

/-- Witness for C5 amended: a token holding "view_orders_ORDER_SERVICE"
passes both read guards. -/
theorem C5_route_permissions_witness :
    check_permissions read_all_orders_permissions 0
        ⟨some "u", some 1, some 10, some ["view_orders_ORDER_SERVICE"], none⟩
      = Except.ok ()
    ∧ check_permissions read_order_permissions 0
        ⟨some "u", some 1, some 10, some ["view_orders_ORDER_SERVICE"], none⟩
      = Except.ok () :=
  (C5_route_permissions 0 10
      ⟨some "u", some 1, some 10, some ["view_orders_ORDER_SERVICE"], none⟩
      rfl rfl rfl (by decide)).2
    (Or.inr (by decide))

/-- C6 counterexample: when the inventory call fails, the surfaced 400
error carries the fixed message "Failed to update item quantity"; two
orders failing on different items (456 vs 789) produce identical errors,
so the error does not carry the failing item's identifier. -/
theorem C6_counterexample :
    (create_order ⟨[], [], 1⟩ ⟨7, none, [⟨456, 2⟩]⟩ (fun _ => 500) 0).result
        = Except.error ⟨400, "Failed to update item quantity"⟩
    ∧ (create_order ⟨[], [], 1⟩ ⟨7, none, [⟨789, 2⟩]⟩ (fun _ => 500) 0).result
        = (create_order ⟨[], [], 1⟩ ⟨7, none, [⟨456, 2⟩]⟩ (fun _ => 500) 0).result :=
  ⟨rfl, rfl⟩

/-- C6 amended: when an inventory call fails during order creation, the
error surfaced to the caller has status 400 and the fixed generic detail
"Failed to update item quantity"; it does not include the failing item's
identifier or a per-failure cause. -/
theorem C6_failure_detail (db : Database) (req : OrderHeaderCreateRequest)
    (inv : Nat → Nat) (now : Int)
    (hfail : (stageLoop inv db.next_order_id req.order_lines 0).2.2 = false) :
    (create_order db req inv now).result
      = Except.error ⟨400, "Failed to update item quantity"⟩ := by
  simp [create_order, hfail]

/-- Witness for C6 amended: a failing single-line order surfaces the fixed
400 error. -/
theorem C6_failure_detail_witness :
    (create_order ⟨[], [], 1⟩ ⟨7, none, [⟨999, 3⟩]⟩ (fun _ => 503) 0).result
      = Except.error ⟨400, "Failed to update item quantity"⟩ :=
  C6_failure_detail ⟨[], [], 1⟩ ⟨7, none, [⟨999, 3⟩]⟩ (fun _ => 503) 0 rfl

/-- C7: a request whose order_lines list is empty is rejected by the
schema-level validation before the handler runs: no inventory call is made
and the database is unchanged. -/
theorem C7_empty_rejected (db : Database) (req : OrderHeaderCreateRequest)
    (inv : Nat → Nat) (now : Int) (h : req.order_lines = []) :
    (post_orders db req inv now).result = Except.error ⟨422, "Unprocessable Entity"⟩
    ∧ (post_orders db req inv now).calls = []
    ∧ (post_orders db req inv now).db = db := by
  have hv : req.valid = false := by
    simp [OrderHeaderCreateRequest.valid, check_list_items_not_empty, h]
  simp [post_orders, hv]

/-- Witness for C7: the concrete empty-lines request is rejected with zero
outbound calls. -/
theorem C7_empty_rejected_witness :
    (post_orders ⟨[], [], 1⟩ ⟨7, none, []⟩ (fun _ => 200) 0).result
        = Except.error ⟨422, "Unprocessable Entity"⟩
    ∧ (post_orders ⟨[], [], 1⟩ ⟨7, none, []⟩ (fun _ => 200) 0).calls = []
    ∧ (post_orders ⟨[], [], 1⟩ ⟨7, none, []⟩ (fun _ => 200) 0).db = ⟨[], [], 1⟩ :=
  C7_empty_rejected ⟨[], [], 1⟩ ⟨7, none, []⟩ (fun _ => 200) 0 rfl

/-- Two order_by values that resolve to the same column produce the same
listing. -/
theorem read_all_orders_congr (db : Database) (limit : Option Nat) (ascending : Bool)
    (o1 o2 : Option String) (h : resolve_order_by o1 = resolve_order_by o2) :
    read_all_orders db limit o1 ascending = read_all_orders db limit o2 ascending := by
  simp only [read_all_orders, h]

/-- C8 counterexample: the order_by value "TOTAL_ITEMS" is not one of the
allowed columns, yet the listing does not fall back to order_id ordering —
the value is lowercased first, so it orders by total_items. -/
theorem C8_counterexample :
    ¬ "TOTAL_ITEMS" ∈ allowed_columns
    ∧ read_all_orders ⟨[⟨1, 1, 5, 0⟩, ⟨2, 1, 3, 0⟩], [], 3⟩ none
        (some "TOTAL_ITEMS") true = [⟨2, 1, 3, 0⟩, ⟨1, 1, 5, 0⟩]
    ∧ read_all_orders ⟨[⟨1, 1, 5, 0⟩, ⟨2, 1, 3, 0⟩], [], 3⟩ none
        (some "order_id") true = [⟨1, 1, 5, 0⟩, ⟨2, 1, 3, 0⟩] := by
  refine ⟨by decide, by decide, by decide⟩

/-- C8 amended: the order_by match is case-insensitive: a value whose
lowercasing is not an allowed column falls back to order_id ordering
without erroring; an absent order_by uses order_id ordering; a present
limit truncates the result under the same ordering. -/
theorem C8_order_by_fallback (db : Database) (limit : Option Nat) (s : String)
    (ascending : Bool) (h : ¬ lowerStr s ∈ allowed_columns) :
    read_all_orders db limit (some s) ascending
        = read_all_orders db limit (some "order_id") ascending
    ∧ read_all_orders db limit none ascending
        = read_all_orders db limit (some "order_id") ascending
    ∧ ∀ l, read_all_orders db (some l) (some s) ascending
        = (read_all_orders db none (some s) ascending).take l := by
  refine ⟨?_, ?_, ?_⟩
  · apply read_all_orders_congr
    have h1 : resolve_order_by (some s) = "order_id" := by
      simp [resolve_order_by, h]
    have h2 : resolve_order_by (some "order_id") = "order_id" := by decide
    rw [h1, h2]
  · apply read_all_orders_congr
    rfl
  · intro l
    rfl

/-- Witness for C8 amended: an unrecognized value "item_count" behaves like
order_id, and limit 1 truncates the listing. -/
theorem C8_order_by_fallback_witness :
    read_all_orders ⟨[⟨1, 1, 5, 0⟩, ⟨2, 1, 3, 0⟩], [], 3⟩ none
        (some "item_count") true
      = read_all_orders ⟨[⟨1, 1, 5, 0⟩, ⟨2, 1, 3, 0⟩], [], 3⟩ none
        (some "order_id") true
    ∧ read_all_orders ⟨[⟨1, 1, 5, 0⟩, ⟨2, 1, 3, 0⟩], [], 3⟩ (some 1)
        (some "item_count") true
      = (read_all_orders ⟨[⟨1, 1, 5, 0⟩, ⟨2, 1, 3, 0⟩], [], 3⟩ none
        (some "item_count") true).take 1 := by
  have h := C8_order_by_fallback ⟨[⟨1, 1, 5, 0⟩, ⟨2, 1, 3, 0⟩], [], 3⟩ none
    "item_count" true (by decide)
  exact ⟨h.1, h.2.2 1⟩

/-- C9 counterexample: a request whose supplied total_items (0) disagrees
with len(order_lines) (1) is rejected by the schema (the field carries a
gt=0 constraint), contradicting the claim that such a request is never
rejected; no header is stored. -/
theorem C9_counterexample :
    OrderHeaderCreateRequest.valid ⟨7, some 0, [⟨10, 2⟩]⟩ = false
    ∧ (0 : Int) ≠ (([(⟨10, 2⟩ : OrderLineCreateRequest)].length : Nat) : Int)
    ∧ (post_orders ⟨[], [], 1⟩ ⟨7, some 0, [⟨10, 2⟩]⟩ (fun _ => 200) 0).result
        = Except.error ⟨422, "Unprocessable Entity"⟩
    ∧ (post_orders ⟨[], [], 1⟩ ⟨7, some 0, [⟨10, 2⟩]⟩ (fun _ => 200) 0).db.headers
        = [] := by
  refine ⟨rfl, by decide, rfl, rfl⟩

/-- C9 amended: any client-supplied total_items passing the schema's
positivity constraint is accepted and never read by the handler — the
endpoint behaves identically with it present or absent — and any header
persisted by the request stores total_items = len(order_lines). -/
theorem C9_total_items_ignored (db : Database) (u t : Int)
    (lines : List OrderLineCreateRequest) (inv : Nat → Nat) (now : Int)
    (ht : 0 < t) :
    post_orders db ⟨u, some t, lines⟩ inv now = post_orders db ⟨u, none, lines⟩ inv now
    ∧ ((create_order db ⟨u, some t, lines⟩ inv now).db.headers = db.headers
       ∨ (create_order db ⟨u, some t, lines⟩ inv now).db.headers
          = db.headers ++ [⟨db.next_order_id, u, (lines.length : Int), now⟩]) := by
  constructor
  · have hval : OrderHeaderCreateRequest.valid ⟨u, some t, lines⟩
        = OrderHeaderCreateRequest.valid ⟨u, none, lines⟩ := by
      simp [OrderHeaderCreateRequest.valid, ht]
    simp only [post_orders, hval]
    rfl
  · by_cases hok : (stageLoop inv db.next_order_id lines 0).2.2 = true
    · right
      simp [create_order, hok]
    · left
      simp [create_order, hok]

/-- Witness for C9 amended: total_items = 5 with a single line behaves as
if absent, and the stored header records total_items = 1. -/
theorem C9_total_items_ignored_witness :
    post_orders ⟨[], [], 1⟩ ⟨7, some 5, [⟨10, 2⟩]⟩ (fun _ => 200) 0
        = post_orders ⟨[], [], 1⟩ ⟨7, none, [⟨10, 2⟩]⟩ (fun _ => 200) 0
    ∧ ((create_order ⟨[], [], 1⟩ ⟨7, some 5, [⟨10, 2⟩]⟩ (fun _ => 200) 0).db.headers
          = []
       ∨ (create_order ⟨[], [], 1⟩ ⟨7, some 5, [⟨10, 2⟩]⟩ (fun _ => 200) 0).db.headers
          = [⟨1, 7, 1, 0⟩]) :=
  C9_total_items_ignored ⟨[], [], 1⟩ 7 5 [⟨10, 2⟩] (fun _ => 200) 0 (by decide)

/-- C10: a validated payload with no permissions claim at all is treated as
having an empty permission set: the guard fails with 403 "insufficient
permissions" (never a 401 and never an internal error) for a non-empty
required-permission list. -/
theorem C10_missing_permissions_forbidden (required : List String)
    (payload : TokenPayload) (hreq : required ≠ [])
    (hperm : payload.permissions = none) :
    permission_checker required payload
      = Except.error
          ⟨403, "Operation not permitted because of insufficient permissions"⟩ := by
  simp [permission_checker, hperm]

/-- Witness for C10: a payload without a permissions claim gets 403 from
the POST /orders/ permission list. -/
theorem C10_missing_permissions_forbidden_witness :
    permission_checker ["manage_orders_ORDER_SERVICE"]
        ⟨some "u", some 1, some 10, none, none⟩
      = Except.error
          ⟨403, "Operation not permitted because of insufficient permissions"⟩ :=
  C10_missing_permissions_forbidden ["manage_orders_ORDER_SERVICE"]
    ⟨some "u", some 1, some 10, none, none⟩ (by decide) rfl
